import Mathlib

/-!
Shallow embedding of the workflow state machine implemented in
src/frontend/src/App.js (the App component).

The React component keeps six pieces of state (diseaseName, url,
selectedFile, status, isLoading, processedFileId) plus a derived
activeStep recomputed by a useEffect.  We model the state as a record,
each event handler as a pure state transformer, and the network as an
explicit count of in-flight requests together with response events.
JavaScript truthiness of strings (empty string is falsy) and of nullable
values is modelled explicitly.
-/

set_option autoImplicit false

namespace MedApp

/-- A selected file as the handlers observe it: the code reads only
`file.name` and `file.type` (the declared media type); the binary
content is passed opaquely to the network payload. -/
structure MedFile where
  name : String
  mediaType : String
deriving DecidableEq, Repr

/-- The component state of App.js, lines 141-147, plus `inflight`, the
number of network requests issued and not yet resolved (the axios POST
of handleProcess counts as one from issue until its then/catch runs). -/
structure AppState where
  diseaseName : String
  url : String
  selectedFile : Option MedFile
  status : String
  isLoading : Bool
  processedFileId : Option String
  inflight : Nat
deriving DecidableEq, Repr

/-- JS truthiness of a string: non-empty. -/
def strPresent (s : String) : Bool := !s.isEmpty

/-- JS truthiness of the nullable `processedFileId`: non-null and non-empty. -/
def idPresent (r : Option String) : Bool :=
  match r with
  | none => false
  | some s => !s.isEmpty

/-- JS truthiness of the nullable `selectedFile` (a File object or null). -/
def filePresent (f : Option MedFile) : Bool := f.isSome

/-- The base URL constant of App.js line 135. -/
def API_BASE_URL : String := "https://medical-data-generator.onrender.com"

/-- Initial state: App.js lines 141-147 (activeStep is derived, inflight 0). -/
def initState : AppState :=
  { diseaseName := ""
    url := ""
    selectedFile := none
    status := "Welcome! Please follow the steps to generate your dataset."
    isLoading := false
    processedFileId := none
    inflight := 0 }

/-- The useEffect of App.js lines 149-159: derive the wizard step index
from the current state. -/
def deriveStep (s : AppState) : Nat :=
  if idPresent s.processedFileId then 3
  else if filePresent s.selectedFile && strPresent s.diseaseName && strPresent s.url then 2
  else if filePresent s.selectedFile then 1
  else 0

/-- The acceptance condition of handleFileSelect, App.js line 164:
`file && file.type === "text/csv"`.  The spec names it isFileAcceptable. -/
def isFileAcceptable (f : Option MedFile) : Bool :=
  match f with
  | none => false
  | some file => file.mediaType == "text/csv"

/-- handleFileSelect, App.js lines 162-172.  The argument is
`event.target.files[0]`, which may be absent. -/
def handleFileSelect (f : Option MedFile) (s : AppState) : AppState :=
  match f with
  | some file =>
    if file.mediaType == "text/csv" then
      { s with selectedFile := some file
               processedFileId := none
               status := "Base file selected: " ++ file.name ++ ". Please provide the disease context." }
    else
      { s with selectedFile := none
               status := "Invalid file. Please select a valid .csv file." }
  | none =>
      { s with selectedFile := none
               status := "Invalid file. Please select a valid .csv file." }

/-- The multipart payload built in handleProcess, App.js lines 183-186. -/
structure Request where
  file : MedFile
  disease_name : String
  url : String
deriving DecidableEq, Repr

/-- handleProcess, App.js lines 174-198, up to issuing the POST: returns
the state after the synchronous prefix together with the request issued,
if any.  The guard (lines 175-178) checks only the three inputs. -/
def handleProcess (s : AppState) : AppState × Option Request :=
  match s.selectedFile with
  | none => ({ s with status := "Error: You must complete all steps before processing." }, none)
  | some f =>
    if strPresent s.diseaseName && strPresent s.url then
      ({ s with isLoading := true
                processedFileId := none
                status := "Processing... This may take a moment."
                inflight := s.inflight + 1 },
       some { file := f, disease_name := s.diseaseName, url := s.url })
    else
      ({ s with status := "Error: You must complete all steps before processing." }, none)

/-- Resolution of the POST on success, App.js lines 192-193 and 197:
set processedFileId to response.data.file_id, report success with the
server message, and clear isLoading. -/
def respondSuccess (file_id message : String) (s : AppState) : AppState :=
  { s with processedFileId := some file_id
           status := "✅ Success: " ++ message
           isLoading := false
           inflight := s.inflight - 1 }

/-- JS `a || b` on the optional server detail, App.js line 195:
an absent or empty detail string falls back to the transport message. -/
def jsOrElse (detail : Option String) (msg : String) : String :=
  match detail with
  | none => msg
  | some d => if d.isEmpty then msg else d

/-- Resolution of the POST on failure, App.js lines 194-197: report
`error.response?.data?.detail || error.message` and clear isLoading;
processedFileId is not touched. -/
def respondFailure (detail : Option String) (message : String) (s : AppState) : AppState :=
  { s with status := "❌ Error: " ++ jsOrElse detail message
           isLoading := false
           inflight := s.inflight - 1 }

/-- The enabled condition of the Process button, App.js line 299
(negation of its disabled prop); the spec names it canSubmit. -/
def canSubmit (s : AppState) : Bool :=
  !s.isLoading && filePresent s.selectedFile && strPresent s.diseaseName && strPresent s.url

/-- handleDownload, App.js lines 200-203: returns the unchanged state
and the URL handed to window.open, if any.  `!processedFileId` returns
early on null or empty identifier. -/
def handleDownload (s : AppState) : AppState × Option String :=
  if idPresent s.processedFileId then
    (s, some (API_BASE_URL ++ "/download/" ++ s.processedFileId.getD ""))
  else
    (s, none)

/-- handleDownloadTemplate, App.js lines 205-207. -/
def handleDownloadTemplate (s : AppState) : AppState × Option String :=
  (s, some (API_BASE_URL ++ "/template"))

/-- The onDelete of the selected-file Chip, App.js line 273. -/
def chipRemove (s : AppState) : AppState :=
  { s with selectedFile := none, processedFileId := none }

/-- UI and network events that drive the component. -/
inductive Event where
  | fileSelect (f : Option MedFile)
  | chipDelete
  | editDisease (d : String)
  | editUrl (u : String)
  | processClick
  | success (file_id message : String)
  | failure (detail : Option String) (message : String)
  | downloadClick
  | templateClick
deriving DecidableEq, Repr

/-- One event of the single-threaded event loop.  UI events fire their
handler only when the triggering control is rendered and enabled:
the Chip exists only while selectedFile is set (line 273), the two
TextFields are disabled while isLoading (lines 282-283), the Process
button is disabled unless canSubmit (line 299), the Download Result
button is disabled while isLoading or without a result (line 309).
Response events resolve an in-flight request and are no-ops otherwise. -/
def step (e : Event) (s : AppState) : AppState :=
  match e with
  | .fileSelect f => handleFileSelect f s
  | .chipDelete => if s.selectedFile.isSome then chipRemove s else s
  | .editDisease d => if s.isLoading then s else { s with diseaseName := d }
  | .editUrl u => if s.isLoading then s else { s with url := u }
  | .processClick => if canSubmit s then (handleProcess s).1 else s
  | .success fid msg => if 0 < s.inflight then respondSuccess fid msg s else s
  | .failure d msg => if 0 < s.inflight then respondFailure d msg s else s
  | .downloadClick =>
      if !s.isLoading && idPresent s.processedFileId then (handleDownload s).1 else s
  | .templateClick => (handleDownloadTemplate s).1

/-- Run a list of events from the initial state. -/
def run (evs : List Event) : AppState :=
  evs.foldl (fun s e => step e s) initState

/-- The accept attribute of the hidden file input, App.js line 268. -/
def inputAcceptAttr : String := ".csv"

/-- The filename filter the accept attribute induces in the host file
picker: it admits any filename with the .csv extension (it does not look
at the media type). -/
def acceptAttrAdmits (filename : String) : Bool :=
  inputAcceptAttr.data.isSuffixOf filename.data

/-- A CSV file as used in the spec scenarios. -/
def goodFile : MedFile := { name := "patients.csv", mediaType := "text/csv" }

/-- A non-CSV file used to exercise the rejection branch. -/
def badFile : MedFile := { name := "notes.txt", mediaType := "text/plain" }

/-- The spec scenario up to clicking Process: select a CSV, fill both
context fields, click the Process button. -/
def submitEvents : List Event :=
  [Event.fileSelect (some goodFile), Event.editDisease "Diabetes",
   Event.editUrl "https://example.org/ref", Event.processClick]

/-- The spec scenario through a successful submission. -/
def demoEvents : List Event :=
  submitEvents ++ [Event.success "abc123" "Appended 10 rows"]

/-- A state with one submission in flight, for concrete instantiations. -/
def loadingState : AppState :=
  { initState with isLoading := true, inflight := 1 }

/-- The execution invariant: the in-flight request count mirrors
isLoading (so it never exceeds one), and while a request is in flight
processedFileId is null (handleProcess cleared it at issue time and no
event can repopulate it before the response resolves). -/
def Inv (s : AppState) : Prop :=
  s.inflight = (if s.isLoading then 1 else 0) ∧
  (s.isLoading = true → s.processedFileId = none)

theorem inv_initState : Inv initState := by
  constructor <;> simp [Inv, initState]

theorem inv_step (e : Event) (s : AppState) (hs : Inv s) : Inv (step e s) := by
  obtain ⟨h1, h2⟩ := hs
  cases e with
  | fileSelect f =>
      rcases f with _ | file
      · exact ⟨h1, h2⟩
      · simp only [step, handleFileSelect]
        split
        · exact ⟨h1, fun _ => rfl⟩
        · exact ⟨h1, h2⟩
  | chipDelete =>
      simp only [step]
      split
      · exact ⟨h1, fun _ => rfl⟩
      · exact ⟨h1, h2⟩
  | editDisease d =>
      simp only [step]
      split <;> exact ⟨h1, h2⟩
  | editUrl u =>
      simp only [step]
      split <;> exact ⟨h1, h2⟩
  | processClick =>
      by_cases hc : canSubmit s = true
      · have hc' := hc
        simp only [canSubmit, Bool.and_eq_true, Bool.not_eq_true', filePresent] at hc'
        obtain ⟨⟨⟨hl, hfile⟩, hd⟩, hu⟩ := hc'
        obtain ⟨f, hf⟩ := Option.isSome_iff_exists.mp hfile
        simp only [step, hc, if_true, handleProcess, hf]
        rw [if_pos (show (strPresent s.diseaseName && strPresent s.url) = true by
          rw [hd, hu]; rfl)]
        refine ⟨?_, fun _ => rfl⟩
        show s.inflight + 1 = if true = true then 1 else 0
        rw [h1, hl]
        decide
      · simp only [step]
        rw [if_neg hc]
        exact ⟨h1, h2⟩
  | success fid msg =>
      simp only [step]
      by_cases hin : 0 < s.inflight
      · have hl : s.isLoading = true := by
          by_contra hl
          rw [Bool.not_eq_true] at hl
          rw [h1, hl] at hin
          simp at hin
        rw [if_pos hin]
        refine ⟨?_, fun hfalse => nomatch hfalse⟩
        show s.inflight - 1 = if false = true then 1 else 0
        rw [h1, hl]
        decide
      · rw [if_neg hin]
        exact ⟨h1, h2⟩
  | failure d msg =>
      simp only [step]
      by_cases hin : 0 < s.inflight
      · have hl : s.isLoading = true := by
          by_contra hl
          rw [Bool.not_eq_true] at hl
          rw [h1, hl] at hin
          simp at hin
        rw [if_pos hin]
        refine ⟨?_, fun hfalse => nomatch hfalse⟩
        show s.inflight - 1 = if false = true then 1 else 0
        rw [h1, hl]
        decide
      · rw [if_neg hin]
        exact ⟨h1, h2⟩
  | downloadClick =>
      simp only [step, handleDownload]
      split
      · split <;> exact ⟨h1, h2⟩
      · exact ⟨h1, h2⟩
  | templateClick =>
      exact ⟨h1, h2⟩

theorem inv_foldl (evs : List Event) (s : AppState) (hs : Inv s) :
    Inv (evs.foldl (fun s e => step e s) s) := by
  induction evs generalizing s with
  | nil => exact hs
  | cons e evs ih => exact ih _ (inv_step e s hs)

theorem inv_run (evs : List Event) : Inv (run evs) :=
  inv_foldl evs initState inv_initState

/-- Claim C1: the step derivation returns 3 iff resultId is present
(regardless of every other field); 2 iff the three inputs are all
present and resultId is absent; 1 iff a file is selected, resultId is
absent, and diseaseName or sourceUrl is empty; 0 otherwise, that is,
exactly when resultId is absent and no file is selected. -/
theorem claim1_deriveStep_characterization (s : AppState) :
    (deriveStep s = 3 ↔ idPresent s.processedFileId = true) ∧
    (deriveStep s = 2 ↔
      idPresent s.processedFileId = false ∧ filePresent s.selectedFile = true ∧
      strPresent s.diseaseName = true ∧ strPresent s.url = true) ∧
    (deriveStep s = 1 ↔
      idPresent s.processedFileId = false ∧ filePresent s.selectedFile = true ∧
      (strPresent s.diseaseName = false ∨ strPresent s.url = false)) ∧
    (deriveStep s = 0 ↔
      idPresent s.processedFileId = false ∧ filePresent s.selectedFile = false) := by
  cases hid : idPresent s.processedFileId <;>
    cases hfile : filePresent s.selectedFile <;>
    cases hd : strPresent s.diseaseName <;>
    cases hu : strPresent s.url <;>
    simp [deriveStep, hid, hfile, hd, hu]

/-- Claim C7: whenever selectedFile, diseaseName, or sourceUrl is
missing or empty, canSubmit is false, and handleProcess sets the
explicit precondition-failure status and issues no request. -/
theorem claim7_precondition_guard (s : AppState)
    (h : filePresent s.selectedFile = false ∨ strPresent s.diseaseName = false ∨
         strPresent s.url = false) :
    canSubmit s = false ∧
    (handleProcess s).1 =
      { s with status := "Error: You must complete all steps before processing." } ∧
    (handleProcess s).2 = none := by
  rcases hf : s.selectedFile with _ | f <;>
    cases hd : strPresent s.diseaseName <;>
    cases hu : strPresent s.url <;>
    simp_all [canSubmit, handleProcess, filePresent]

theorem claim7_witness :
    canSubmit initState = false ∧
    (handleProcess initState).1 =
      { initState with status := "Error: You must complete all steps before processing." } ∧
    (handleProcess initState).2 = none :=
  claim7_precondition_guard initState (Or.inl rfl)

/-- Claim C8: a file is acceptable iff one is provided and its declared
media type is the CSV media type; every rejected input sets the status
message naming the .csv requirement and leaves selectedFile empty. -/
theorem claim8_fileAcceptance (f : Option MedFile) (s : AppState)
    (h : isFileAcceptable f = false) :
    (∀ g : Option MedFile,
      isFileAcceptable g = true ↔ ∃ file, g = some file ∧ file.mediaType = "text/csv") ∧
    (handleFileSelect f s).status = "Invalid file. Please select a valid .csv file." ∧
    (handleFileSelect f s).selectedFile = none := by
  have hiff : ∀ g : Option MedFile,
      isFileAcceptable g = true ↔ ∃ file, g = some file ∧ file.mediaType = "text/csv" := by
    intro g
    rcases g with _ | file <;> simp [isFileAcceptable]
  rcases f with _ | file
  · exact ⟨hiff, by simp [handleFileSelect], by simp [handleFileSelect]⟩
  · simp only [isFileAcceptable] at h
    exact ⟨hiff, by simp [handleFileSelect, h], by simp [handleFileSelect, h]⟩

theorem claim8_witness :
    (∀ g : Option MedFile,
      isFileAcceptable g = true ↔ ∃ file, g = some file ∧ file.mediaType = "text/csv") ∧
    (handleFileSelect (some badFile) initState).status =
      "Invalid file. Please select a valid .csv file." ∧
    (handleFileSelect (some badFile) initState).selectedFile = none :=
  claim8_fileAcceptance (some badFile) initState (by decide)

/-- Claim C9: the two download handlers never change any field of the
state; their only output is the URL handed to the host, and with no
result identifier handleDownload does nothing at all. -/
theorem claim9_downloads_frame (s : AppState) :
    (handleDownload s).1 = s ∧
    (handleDownloadTemplate s).1 = s ∧
    (handleDownloadTemplate s).2 = some (API_BASE_URL ++ "/template") ∧
    (idPresent s.processedFileId = false → handleDownload s = (s, none)) := by
  refine ⟨?_, rfl, rfl, ?_⟩
  · unfold handleDownload
    split <;> rfl
  · intro h
    simp [handleDownload, h]

theorem claim9_witness :
    handleDownload initState = (initState, none) ∧
    (handleDownloadTemplate initState).1 = initState :=
  ⟨(claim9_downloads_frame initState).2.2.2 rfl, (claim9_downloads_frame initState).2.1⟩

/-- Claim C10: a provided file is accepted exactly when its declared
media type is the exact string text/csv; other CSV-identifying media
types such as application/csv or application/vnd.ms-excel are rejected,
even though the accept attribute of the file input admits any filename
ending in .csv. -/
theorem claim10_exact_mediatype :
    (∀ file : MedFile, isFileAcceptable (some file) = true ↔ file.mediaType = "text/csv") ∧
    isFileAcceptable (some { name := "data.csv", mediaType := "application/csv" }) = false ∧
    isFileAcceptable (some { name := "data.csv", mediaType := "application/vnd.ms-excel" }) = false ∧
    acceptAttrAdmits "data.csv" = true := by
  refine ⟨?_, by decide, by decide, by decide⟩
  intro file
  simp [isFileAcceptable]

/-- Claim C2 counterexample: in the reachable state after a successful
submission (resultId abc123), the rejection branch of handleFileSelect
sets selectedFile to empty yet leaves resultId set, so not every
operation that sets selectedFile clears resultId. -/
theorem claim2_counterexample :
    (run demoEvents).processedFileId = some "abc123" ∧
    (handleFileSelect (some badFile) (run demoEvents)).selectedFile = none ∧
    (handleFileSelect (some badFile) (run demoEvents)).processedFileId = some "abc123" := by
  refine ⟨by decide, by decide, by decide⟩

/-- Claim C2 (amended): the accepting branch of handleFileSelect and the
chip removal clear resultId for every prior state, but the rejection
branch sets selectedFile to empty while leaving resultId unchanged. -/
theorem claim2_amended (s : AppState) (f : MedFile) (g : Option MedFile)
    (hf : f.mediaType = "text/csv") (hg : isFileAcceptable g = false) :
    (handleFileSelect (some f) s).selectedFile = some f ∧
    (handleFileSelect (some f) s).processedFileId = none ∧
    (chipRemove s).selectedFile = none ∧
    (chipRemove s).processedFileId = none ∧
    (handleFileSelect g s).selectedFile = none ∧
    (handleFileSelect g s).processedFileId = s.processedFileId := by
  refine ⟨?_, ?_, rfl, rfl, ?_, ?_⟩
  · simp [handleFileSelect, hf]
  · simp [handleFileSelect, hf]
  · rcases g with _ | file <;> simp_all [handleFileSelect, isFileAcceptable]
  · rcases g with _ | file <;> simp_all [handleFileSelect, isFileAcceptable]

theorem claim2_witness :
    (handleFileSelect (some goodFile) initState).selectedFile = some goodFile ∧
    (handleFileSelect (some goodFile) initState).processedFileId = none ∧
    (chipRemove initState).selectedFile = none ∧
    (chipRemove initState).processedFileId = none ∧
    (handleFileSelect (some badFile) initState).selectedFile = none ∧
    (handleFileSelect (some badFile) initState).processedFileId = initState.processedFileId :=
  claim2_amended initState goodFile (some badFile) rfl (by decide)

/-- Claim C3: clicking Process while a submission is in flight fires no
handler (the button is disabled while isLoading), and along every event
sequence from the initial state at most one submission is in flight. -/
theorem claim3_single_flight (s : AppState) (hl : s.isLoading = true) (evs : List Event) :
    step Event.processClick s = s ∧ (run evs).inflight ≤ 1 := by
  constructor
  · simp only [step]
    rw [if_neg (by simp [canSubmit, hl])]
  · have h := (inv_run evs).1
    rw [h]
    split <;> simp

theorem claim3_witness :
    step Event.processClick loadingState = loadingState ∧ (run submitEvents).inflight ≤ 1 :=
  claim3_single_flight loadingState rfl submitEvents

/-- Claim C4 counterexample: in the reachable state after a successful
submission, editing the disease name leaves resultId set, so changing
one of the three inputs does not always clear resultId. -/
theorem claim4_counterexample :
    (run demoEvents).processedFileId = some "abc123" ∧
    (step (Event.editDisease "Cancer") (run demoEvents)).processedFileId = some "abc123" ∧
    (step (Event.editUrl "https://other.example") (run demoEvents)).processedFileId
      = some "abc123" := by
  refine ⟨by decide, by decide, by decide⟩

/-- Claim C4 (amended): resultId becomes non-null only through the
success resolution of an in-flight submission; an accepted file
selection and the chip removal clear resultId in every state, but
editing diseaseName or sourceUrl leaves resultId unchanged in every
state, including the states where a result is present. -/
theorem claim4_amended (s : AppState) (e : Event)
    (hnone : s.processedFileId = none)
    (hset : (step e s).processedFileId ≠ none) :
    (∃ fid msg, e = Event.success fid msg ∧ 0 < s.inflight) ∧
    (∀ (t : AppState) (f : MedFile) (d u : String),
      (f.mediaType = "text/csv" → (handleFileSelect (some f) t).processedFileId = none) ∧
      (chipRemove t).processedFileId = none ∧
      (step (Event.editDisease d) t).processedFileId = t.processedFileId ∧
      (step (Event.editUrl u) t).processedFileId = t.processedFileId) := by
  constructor
  · cases e with
    | fileSelect f =>
        exfalso
        apply hset
        rcases f with _ | file
        · exact hnone
        · simp only [step, handleFileSelect]
          split
          · rfl
          · exact hnone
    | chipDelete =>
        exfalso
        apply hset
        simp only [step]
        split
        · rfl
        · exact hnone
    | editDisease d =>
        exfalso
        apply hset
        simp only [step]
        split <;> exact hnone
    | editUrl u =>
        exfalso
        apply hset
        simp only [step]
        split <;> exact hnone
    | processClick =>
        exfalso
        apply hset
        simp only [step]
        split
        · simp only [handleProcess]
          rcases hfsel : s.selectedFile with _ | f <;> simp only [hfsel]
          · exact hnone
          · split
            · rfl
            · exact hnone
        · exact hnone
    | success fid msg =>
        by_cases hin : 0 < s.inflight
        · exact ⟨fid, msg, rfl, hin⟩
        · exfalso
          apply hset
          simp only [step]
          rw [if_neg hin]
          exact hnone
    | failure d msg =>
        exfalso
        apply hset
        simp only [step]
        split <;> exact hnone
    | downloadClick =>
        exfalso
        apply hset
        simp only [step, handleDownload]
        split
        · split <;> exact hnone
        · exact hnone
    | templateClick =>
        exact absurd hnone hset
  · intro t f d u
    refine ⟨fun hf => ?_, rfl, ?_, ?_⟩
    · simp [handleFileSelect, hf]
    · simp only [step]
      split <;> rfl
    · simp only [step]
      split <;> rfl

theorem claim4_witness :
    (∃ fid msg, Event.success "abc123" "Appended 10 rows" = Event.success fid msg ∧
      0 < loadingState.inflight) ∧
    (∀ (t : AppState) (f : MedFile) (d u : String),
      (f.mediaType = "text/csv" → (handleFileSelect (some f) t).processedFileId = none) ∧
      (chipRemove t).processedFileId = none ∧
      (step (Event.editDisease d) t).processedFileId = t.processedFileId ∧
      (step (Event.editUrl u) t).processedFileId = t.processedFileId) :=
  claim4_amended loadingState (Event.success "abc123" "Appended 10 rows") rfl (by decide)

/-- Claim C5: resolving an in-flight submission with a failure sets the
status to the error message built from the server-provided detail when
that is present and non-empty, else from the transport error message,
clears isLoading, and leaves resultId absent. -/
theorem claim5_failure_resolution (evs : List Event) (detail : Option String) (msg : String)
    (hl : (run evs).isLoading = true) :
    (run (evs ++ [Event.failure detail msg])).status = "❌ Error: " ++ jsOrElse detail msg ∧
    (run (evs ++ [Event.failure detail msg])).isLoading = false ∧
    (run (evs ++ [Event.failure detail msg])).processedFileId = none := by
  have hinv := inv_run evs
  have hin : 0 < (run evs).inflight := by
    rw [hinv.1, hl]
    decide
  have hrun : run (evs ++ [Event.failure detail msg]) =
      respondFailure detail msg (run evs) := by
    unfold run
    rw [List.foldl_append]
    show step (Event.failure detail msg) (run evs) = _
    simp only [step]
    rw [if_pos hin]
    rfl
  rw [hrun]
  exact ⟨rfl, rfl, hinv.2 hl⟩

theorem claim5_witness :
    (run (submitEvents ++ [Event.failure (some "Invalid URL") "Network Error"])).status
      = "❌ Error: " ++ jsOrElse (some "Invalid URL") "Network Error" ∧
    (run (submitEvents ++ [Event.failure (some "Invalid URL") "Network Error"])).isLoading
      = false ∧
    (run (submitEvents ++ [Event.failure (some "Invalid URL") "Network Error"])).processedFileId
      = none :=
  claim5_failure_resolution submitEvents (some "Invalid URL") "Network Error" (by decide)

/-- Claim C6: resolving an in-flight submission with success (a present
file identifier and a message) stores the identifier in resultId, sets
the success status incorporating the server message, clears isLoading,
and the derived step becomes 3. -/
theorem claim6_success_resolution (s : AppState) (fid msg : String)
    (hin : 0 < s.inflight) (hfid : fid ≠ "") :
    (step (Event.success fid msg) s).processedFileId = some fid ∧
    (step (Event.success fid msg) s).status = "✅ Success: " ++ msg ∧
    (step (Event.success fid msg) s).isLoading = false ∧
    deriveStep (step (Event.success fid msg) s) = 3 := by
  simp only [step]
  rw [if_pos hin]
  refine ⟨rfl, rfl, rfl, ?_⟩
  simp [deriveStep, respondSuccess, idPresent, String.isEmpty_iff, hfid]

theorem claim6_witness :
    (step (Event.success "abc123" "Appended 10 rows") loadingState).processedFileId
      = some "abc123" ∧
    (step (Event.success "abc123" "Appended 10 rows") loadingState).status
      = "✅ Success: " ++ "Appended 10 rows" ∧
    (step (Event.success "abc123" "Appended 10 rows") loadingState).isLoading = false ∧
    deriveStep (step (Event.success "abc123" "Appended 10 rows") loadingState) = 3 :=
  claim6_success_resolution loadingState "abc123" "Appended 10 rows" (by decide) (by decide)

end MedApp
